import Mathlib

/-!
Verification of the OBEX map-client session core.

This file gives a shallow embedding of the session lifecycle code in
src/client/session.c and of the phonebook folder navigation in
src/plugins/phonebook-tracker.c, and proves the specified properties
about them.

Modelling conventions:
* C pointers to heap objects become explicit records; pointer identity is
  modelled by a numeric id field where it matters (sessions, transfers,
  pending D-Bus calls).
* Bluetooth addresses (bdaddr_t) are modelled as strings; str2ba is the
  identity on the string form and BDADDR_ANY is the empty string.  The
  claims under study never depend on the byte encoding of an address.
* Observable interactions with external collaborators (D-Bus calls, the
  transfer object, the authorization agent, GLib idle callbacks) are
  recorded as an ordered trace of Effect values.
* External outcomes that the C code branches on (allocation failures,
  error replies, bt_io/sdp connect results) are passed as explicit
  parameters, so each embedded function is a pure function of its inputs.
-/

namespace MapClient



/-- errno value for EIO (5) used by session.c error paths. -/
def EIOERR : Int := 5

/-- errno value for EINVAL (22). -/
def EINVALERR : Int := 22

/-- errno value for ENOMEM (12). -/
def ENOMEMERR : Int := 12

/-- errno value for ENOTCONN (107). -/
def ENOTCONNERR : Int := 107

/-- errno value for EISCONN (106). -/
def EISCONNERR : Int := 106

/-- errno value for ECANCELED (125). -/
def ECANCELEDERR : Int := 125

/-- errno value for ENOENT (2) used by phonebook_set_folder. -/
def ENOENTERR : Int := 2

/-- errno value for EBADR (53) used by phonebook_set_folder. -/
def EBADRERR : Int := 53

/-- A service driver (struct obc_driver): service name, uuid string and the
optional fixed OBEX target id (target + target_len). -/
structure Driver where
  service : Option String
  uuid : String
  target : Option (List Nat)
deriving DecidableEq

/-- A transfer handle as seen from session.c: its identity, the value
obc_transfer_get_path returns (the exposed D-Bus path, may be NULL) and the
value obc_transfer_get_size returns. -/
structure Transfer where
  tid : Nat
  tpath : Option String
  size : Int
deriving DecidableEq

/-- struct obc_session, with pointer-valued fields turned into options/lists.
The io field of the C struct is called ioChan here.  The agent and the
session-level callback are modelled by their presence only, which is all
session.c inspects. -/
structure OSession where
  sid : Nat
  refcount : Int
  src : String
  dst : String
  channel : Nat
  driver : Driver
  path : Option String
  obex : Bool
  ioChan : Bool
  agent : Option Unit
  callback : Option Unit
  owner : Option String
  watch : Nat
  pending : List Transfer
  pendingCalls : List Nat
  adapter : Option String
deriving DecidableEq

/-- Observable interactions of session.c with its collaborators, in program
order. -/
inductive Effect where
  /-- pending_req_finalize on the pending call with this id (cancel if not
  completed, unref). -/
  | reqFinalized (id : Nat)
  /-- FindAdapter (with the given source) or DefaultAdapter (none) sent to the
  manager. -/
  | managerCall (src : Option String)
  /-- RequestSession sent to the resolved adapter. -/
  | requestAdmission (adapter : String)
  /-- Fire-and-forget ReleaseSession sent to the resolved adapter. -/
  | releaseAdmission (adapter : String)
  /-- The original connect request completion (callback->func of the
  callback_data) invoked with the given error (none = success). -/
  | callbackInvoked (err : Option String)
  /-- g_free of the callback_data of the connect attempt. -/
  | callbackFreed
  /-- g_idle_add(connection_complete): deferred success completion. -/
  | scheduleComplete
  /-- rfcomm_connect attempted towards the given channel. -/
  | transportConnect (channel : Nat)
  /-- service_connect attempted (SDP discovery opened). -/
  | startDiscovery
  /-- g_obex_connect request issued (OBEX CONNECT handshake started). -/
  | obexConnectIssued
  /-- The session was prepended to the process-wide sessions list. -/
  | registryInserted (sid : Nat)
  /-- The session was removed from the process-wide sessions list. -/
  | registryRemoved (sid : Nat)
  /-- obc_agent_release + obc_agent_free during session_free. -/
  | agentReleased
  /-- session_unregistered: driver remove hook + interface unregistration. -/
  | interfaceUnregistered
  /-- Final g_free of the session memory. -/
  | memFree (sid : Nat)
  /-- Agent.Progress notification. -/
  | agentNotifyProgress (path : String) (bytes : Int)
  /-- Agent.Complete notification. -/
  | agentNotifyComplete (path : String)
  /-- Agent.Error notification. -/
  | agentNotifyError (path : String) (msg : String)
  /-- The session-level callback (session->callback->func) invoked. -/
  | sessionCbInvoked (err : Option String)
  /-- obc_transfer_register completed for this transfer. -/
  | transferRegistered (tid : Nat)
  /-- obc_transfer_unregister called on this transfer. -/
  | transferUnregistered (tid : Nat)
  /-- session_request issued for this transfer: its admission cycle started
  (agent request sent, or deferred proceed scheduled). -/
  | admissionStarted (tid : Nat)
deriving DecidableEq

/-- g_slist_remove by session pointer: drops the first entry with this id. -/
def removeById (sid : Nat) (reg : List OSession) : List OSession :=
  reg.eraseP (fun t => t.sid = sid)

/-- Mutation through an aliased pointer: every registry entry that is the
same object as s is updated to the new value of s. -/
def updateById (s : OSession) (reg : List OSession) : List OSession :=
  reg.map (fun t => if t.sid = s.sid then s else t)

/-- obc_session_ref: g_atomic_int_inc on the refcount. -/
def obc_session_ref (s : OSession) : OSession :=
  { s with refcount := s.refcount + 1 }

/-- The fire-and-forget ReleaseSession of obc_session_unref.  When the
adapter was never resolved, session->adapter is NULL and
dbus_message_new_method_call refuses a NULL path, so nothing is sent. -/
def sendReleaseEffects (s : OSession) : List Effect :=
  match s.adapter with
  | some a => [Effect.releaseAdmission a]
  | none => []

/-- session_free: finalize every pending call, release the agent, drop the
obex handle and the channel, unregister the interface when a path was
assigned, remove the session from the registry and free it, in the order of
the C code. -/
def session_free_effects (s : OSession) : List Effect :=
  (s.pendingCalls.map Effect.reqFinalized)
    ++ (if s.agent.isSome then [Effect.agentReleased] else [])
    ++ (if s.path.isSome then [Effect.interfaceUnregistered] else [])
    ++ [Effect.registryRemoved s.sid, Effect.memFree s.sid]

/-- obc_session_unref: g_atomic_int_dec_and_test; when the count reaches
zero, send ReleaseSession to the adapter and run session_free.  Returns the
surviving session (none when freed), the updated registry, and the trace. -/
def obc_session_unref_w (s : OSession) (reg : List OSession) :
    Option OSession × List OSession × List Effect :=
  let r := s.refcount - 1
  if r = 0 then
    (none, removeById s.sid reg,
      sendReleaseEffects s ++ session_free_effects s)
  else
    let s2 := { s with refcount := r }
    (some s2, updateById s2 reg, [])

/-- One acquire or release step of the session lifecycle. -/
inductive RefOp where
  | ref
  | unref
deriving DecidableEq

/-- Effect of one RefOp on the reference count. -/
def applyRefOp (n : Int) : RefOp → Int
  | RefOp.ref => n + 1
  | RefOp.unref => n - 1

/-- The count after a sequence of RefOps. -/
def finalRefCount (n : Int) (ops : List RefOp) : Int :=
  ops.foldl applyRefOp n

/-- A sequence of ref/unref calls is valid when the session is still alive
(count positive) each time an operation is applied. -/
def validRefSeq : Int → List RefOp → Bool
  | _, [] => true
  | n, op :: rest => decide (0 < n) && validRefSeq (applyRefOp n op) rest

/-- Run a sequence of obc_session_ref / obc_session_unref calls, collecting
the trace.  Once the session is freed no further operation is modelled
(validRefSeq rules such sequences out). -/
def runRefOps : OSession → List OSession → List RefOp →
    Option OSession × List OSession × List Effect
  | s, reg, [] => (some s, reg, [])
  | s, reg, RefOp.ref :: rest => runRefOps (obc_session_ref s) reg rest
  | s, reg, RefOp.unref :: rest =>
    match obc_session_unref_w s reg with
    | (some s2, reg2, tr) =>
      match runRefOps s2 reg2 rest with
      | (o, reg3, tr2) => (o, reg3, tr ++ tr2)
    | (none, reg2, tr) => (none, reg2, tr)

/-- Is this effect the final free of the session memory? -/
def isMemFree : Effect → Bool
  | Effect.memFree _ => true
  | _ => false

/-- Number of times the session memory is freed in a trace. -/
def freeCount (tr : List Effect) : Nat :=
  tr.countP isMemFree

/-- Checks that no memFree occurs in the trace before a releaseAdmission has
been seen: the admission-release notification precedes the free. -/
def releaseSeenBeforeFree : Bool → List Effect → Bool
  | _, [] => true
  | _, Effect.releaseAdmission _ :: r => releaseSeenBeforeFree true r
  | seen, Effect.memFree _ :: r => seen && releaseSeenBeforeFree seen r
  | seen, _ :: r => releaseSeenBeforeFree seen r

/-- A concrete session used to instantiate the theorems. -/
def sampleDriver : Driver :=
  { service := some "message-access"
    uuid := "00001132-0000-1000-8000-00805f9b34fb"
    target := some [0xbb, 0x58, 0x2b, 0x40] }

/-- A concrete live session (adapter resolved, transport not yet up). -/
def sampleSession : OSession :=
  { sid := 1
    refcount := 2
    src := "00:11:22:33:44:55"
    dst := "AA:BB:CC:DD:EE:FF"
    channel := 0
    driver := sampleDriver
    path := none
    obex := false
    ioChan := false
    agent := none
    callback := none
    owner := some ":1.42"
    watch := 7
    pending := []
    pendingCalls := [3]
    adapter := some "/org/bluez/hci0" }

/-- session_connect: an already connected session schedules its deferred
completion; a session with a known channel connects the RFCOMM transport
directly; otherwise SDP service discovery is opened.  rfcommOk / sdpOk
stand for the NULL-checked results of bt_io_connect and sdp_connect. -/
def session_connect (s : OSession) (rfcommOk sdpOk : Bool) :
    Int × OSession × List Effect :=
  if s.obex then
    (0, s, [Effect.scheduleComplete])
  else if 0 < s.channel then
    if rfcommOk then
      (0, { s with ioChan := true }, [Effect.transportConnect s.channel])
    else
      (-EINVALERR, { s with ioChan := false },
        [Effect.transportConnect s.channel])
  else
    if sdpOk then
      (0, { s with ioChan := true }, [Effect.startDiscovery])
    else
      (-ENOMEMERR, s, [Effect.startDiscovery])

/-- Reply of the FindAdapter / DefaultAdapter manager call: a D-Bus error
reply, or a normal reply that may or may not carry an object-path
argument. -/
inductive ManagerReply where
  | errReply (name msg : String)
  | okReply (adapterPath : Option String)
deriving DecidableEq

/-- manager_reply: finalize the pending call, then either abort the attempt
(error reply, missing object path, or failure to allocate the follow-up
RequestSession call) by dropping the attempt's session reference and
freeing the callback, or record the adapter path and send RequestSession.
freshReq is the id of the newly created pending call; sendOk models
send_method_call's result. -/
def manager_reply (s : OSession) (reg : List OSession) (reqId : Nat)
    (reply : ManagerReply) (freshReq : Nat) (sendOk : Bool) :
    Option OSession × List OSession × List Effect :=
  let s1 := { s with pendingCalls := s.pendingCalls.erase reqId }
  let fin := [Effect.reqFinalized reqId]
  match reply with
  | ManagerReply.errReply _ _ =>
    let (o, reg2, tr) := obc_session_unref_w s1 reg
    (o, reg2, fin ++ tr ++ [Effect.callbackFreed])
  | ManagerReply.okReply none =>
    let (o, reg2, tr) := obc_session_unref_w s1 reg
    (o, reg2, fin ++ tr ++ [Effect.callbackFreed])
  | ManagerReply.okReply (some adapterPath) =>
    let s2 := { s1 with adapter := some adapterPath }
    if sendOk then
      let s3 := { s2 with pendingCalls := freshReq :: s2.pendingCalls }
      (some s3, updateById s3 reg,
        fin ++ [Effect.requestAdmission adapterPath])
    else
      let (o, reg2, tr) := obc_session_unref_w s2 reg
      (o, reg2, fin ++ tr ++ [Effect.callbackFreed])

/-- Reply of the RequestSession admission call. -/
inductive AdapterReply where
  | errReply (name msg : String)
  | okReply
deriving DecidableEq

/-- adapter_reply: finalize the pending RequestSession call; on an error
reply, or when session_connect fails synchronously, the attempt is dropped
(session unref, callback freed); otherwise bring-up proceeds through
session_connect. -/
def adapter_reply (s : OSession) (reg : List OSession) (reqId : Nat)
    (reply : AdapterReply) (rfcommOk sdpOk : Bool) :
    Option OSession × List OSession × List Effect :=
  let s1 := { s with pendingCalls := s.pendingCalls.erase reqId }
  let fin := [Effect.reqFinalized reqId]
  match reply with
  | AdapterReply.errReply _ _ =>
    let (o, reg2, tr) := obc_session_unref_w s1 reg
    (o, reg2, fin ++ tr ++ [Effect.callbackFreed])
  | AdapterReply.okReply =>
    let r := session_connect s1 rfcommOk sdpOk
    if r.1 < 0 then
      let (o, reg2, tr2) := obc_session_unref_w r.2.1 reg
      (o, reg2, fin ++ r.2.2 ++ tr2 ++ [Effect.callbackFreed])
    else
      (some r.2.1, updateById r.2.1 reg, fin ++ r.2.2)

/-- G_OBEX_RSP_SUCCESS. -/
def G_OBEX_RSP_SUCCESS : Nat := 0x20

/-- connect_cb: completion of the OBEX CONNECT handshake.  A transport
error or a non-success response code becomes an OBEX_IO_ERROR; the connect
completion callback is invoked either way and the attempt's session
reference is dropped.  The sessions registry is not touched here. -/
def connect_cb (s : OSession) (reg : List OSession)
    (err : Option String) (rspCode : Nat) :
    Option OSession × List OSession × List Effect :=
  let gerr : Option String :=
    match err with
    | some e => some e
    | none =>
      if rspCode ≠ G_OBEX_RSP_SUCCESS then some "OBEX Connect failed"
      else none
  let (o, reg2, tr) := obc_session_unref_w s reg
  (o, reg2, [Effect.callbackInvoked gerr] ++ tr ++ [Effect.callbackFreed])

/-- rfcomm_callback: completion of the RFCOMM transport connect.  err is
the bt_io error; gobexNewOk models g_obex_new's result; issueErr the
synchronous error of g_obex_connect.  When the OBEX CONNECT request is
issued successfully the session stores the obex handle and is prepended to
the process-wide sessions list; every other path reports through the
connect callback and drops the attempt's reference.  (On the g_obex_new
failure path the C code jumps to done with err still NULL, so the callback
is invoked without an error.) -/
def rfcomm_callback (s : OSession) (reg : List OSession)
    (err : Option String) (gobexNewOk : Bool) (issueErr : Option String) :
    Option OSession × List OSession × List Effect :=
  match err with
  | some e =>
    let (o, reg2, tr) := obc_session_unref_w s reg
    (o, reg2,
      [Effect.callbackInvoked (some e)] ++ tr ++ [Effect.callbackFreed])
  | none =>
    if gobexNewOk = false then
      let (o, reg2, tr) := obc_session_unref_w s reg
      (o, reg2,
        [Effect.callbackInvoked none] ++ tr ++ [Effect.callbackFreed])
    else
      let s1 := { s with ioChan := false }
      match issueErr with
      | some e =>
        let (o, reg2, tr) := obc_session_unref_w s1 reg
        (o, reg2,
          [Effect.obexConnectIssued, Effect.callbackInvoked (some e)] ++ tr
            ++ [Effect.callbackFreed])
      | none =>
        let s2 := { s1 with obex := true }
        (some s2, s2 :: updateById s2 reg,
          [Effect.obexConnectIssued, Effect.registryInserted s2.sid])

/-- The failed label of search_callback: shut the discovery channel down
and surface "Unable to find service record" through the connect callback,
dropping the attempt's reference. -/
def searchFailed (s : OSession) (reg : List OSession) :
    Option OSession × List OSession × List Effect :=
  let s1 := { s with ioChan := false }
  let (o, reg2, tr) := obc_session_unref_w s1 reg
  (o, reg2,
    [Effect.callbackInvoked (some "Unable to find service record")] ++ tr
      ++ [Effect.callbackFreed])

/-- The record loop of search_callback: the first record whose protocol
descriptors yield a positive RFCOMM channel wins; the assignment to the
uint8_t local truncates the int channel. -/
def firstRfcommChannel (records : List Int) : Nat :=
  match records.find? (fun ch => decide (0 < ch)) with
  | some ch => ch.toNat % 256
  | none => 0

/-- search_callback: completion of the SDP service search.  records holds,
in response order, the RFCOMM channel sdp_get_proto_port extracted from
each record (a value <= 0 when the record carries no RFCOMM channel);
parseOk models the initial sequence-header extraction.  The loop keeps the
first positive channel (truncated to uint8_t); a zero channel means no
usable record and takes the failed path.  rfcommOk is the result of the
follow-up rfcomm_connect. -/
def search_callback (s : OSession) (reg : List OSession)
    (status : Nat) (typeOk : Bool) (parseOk : Bool)
    (records : List Int) (rfcommOk : Bool) :
    Option OSession × List OSession × List Effect :=
  if status ≠ 0 ∨ typeOk = false then searchFailed s reg
  else if parseOk = false then searchFailed s reg
  else
    let channel : Nat := firstRfcommChannel records
    if channel = 0 then searchFailed s reg
    else
      let s1 := { s with channel := channel }
      if rfcommOk then
        (some { s1 with ioChan := true },
          updateById { s1 with ioChan := true } reg,
          [Effect.transportConnect channel])
      else
        let (o, reg2, tr) := obc_session_unref_w { s1 with ioChan := false } reg
        (o, reg2,
          [Effect.transportConnect channel,
            Effect.callbackInvoked (some "Unable to find service record")]
            ++ tr ++ [Effect.callbackFreed])

/-- Is this effect an invocation of the connect completion callback? -/
def isConnectCbInvoked : Effect → Bool
  | Effect.callbackInvoked _ => true
  | _ => false

/-- Is this effect an RFCOMM transport connect attempt? -/
def isTransportConnect : Effect → Bool
  | Effect.transportConnect _ => true
  | _ => false

/-- Is this effect a FindAdapter/DefaultAdapter manager call? -/
def isManagerCall : Effect → Bool
  | Effect.managerCall _ => true
  | _ => false

/-- Is this effect a RequestSession admission call? -/
def isRequestAdmission : Effect → Bool
  | Effect.requestAdmission _ => true
  | _ => false

/-- Is this effect an insertion into the sessions registry? -/
def isRegistryInserted : Effect → Bool
  | Effect.registryInserted _ => true
  | _ => false

/-- A concrete fresh session with a known channel. -/
def sampleSessionCh9 : OSession :=
  { sampleSession with sid := 2, channel := 9 }

/-- What the failed label of manager_reply / adapter_reply actually does to
a bring-up attempt: the connect completion callback is never invoked, no
further manager or admission call is sent (no retry), and the reference
held by the attempt is released, freeing the session when it was the last
reference. -/
def attemptDropped (n : Int)
    (r : Option OSession × List OSession × List Effect) : Prop :=
  List.countP isConnectCbInvoked r.2.2 = 0
    ∧ List.countP isManagerCall r.2.2 = 0
    ∧ List.countP isRequestAdmission r.2.2 = 0
    ∧ (∀ s2, r.1 = some s2 → s2.refcount = n - 1)
    ∧ (r.1 = none → n = 1)

/-- A concrete session at the transport-connected point of bring-up. -/
def c2SessionA : OSession :=
  { sampleSession with sid := 3, ioChan := true }

/-- The transport-connect completion succeeding and issuing OBEX CONNECT. -/
def c2RunA : Option OSession × List OSession × List Effect :=
  rfcomm_callback c2SessionA [] none true none

/-- The subsequent handshake completion, with a non-success response. -/
def c2RunB : Option OSession × List OSession × List Effect :=
  match c2RunA.1 with
  | some s => connect_cb s c2RunA.2.1 none 0x4c
  | none => (none, [], [])

/-- BDADDR_ANY in the string model of addresses. -/
def BDADDR_ANY : String := "00:00:00:00:00:00"

/-- str2ba in the string model of addresses: the identity. -/
def str2ba (a : String) : String := a

/-- session_find: walk the sessions list with the continue-chain of the C
loop: skip an entry when the supplied source does not match, when the
destination differs, when the driver service differs (g_strcmp0 semantics
on possibly-NULL strings), when a non-zero channel was supplied and
differs, or when the owner differs; the first surviving entry wins. -/
def srcMismatch (source : Option String) (s : OSession) : Bool :=
  match source with
  | some a => decide (s.src ≠ str2ba a)
  | none => false

def session_find (source : Option String) (destination : String)
    (service : Option String) (channel : Nat) (owner : Option String) :
    List OSession → Option OSession
  | [] => none
  | s :: rest =>
    if srcMismatch source s then
      session_find source destination service channel owner rest
    else if s.dst ≠ str2ba destination then
      session_find source destination service channel owner rest
    else if s.driver.service ≠ service then
      session_find source destination service channel owner rest
    else if channel ≠ 0 ∧ s.channel ≠ channel then
      session_find source destination service channel owner rest
    else if s.owner ≠ owner then
      session_find source destination service channel owner rest
    else
      some s

/-- The reuse-match tuple of the spec: every supplied non-wildcard field
matches (source or any when unspecified, destination, service name,
channel or unconstrained when zero, owner identity). -/
def srcMatches (source : Option String) (s : OSession) : Bool :=
  match source with
  | some a => decide (s.src = str2ba a)
  | none => true

def session_match (source : Option String) (destination : String)
    (service : Option String) (channel : Nat) (owner : Option String)
    (s : OSession) : Bool :=
  srcMatches source s
    && decide (s.dst = str2ba destination)
    && decide (s.driver.service = service)
    && (decide (channel = 0) || decide (s.channel = channel))
    && decide (s.owner = owner)

/-- obc_session_set_owner: replace the disconnect watch and record the
owner name.  freshWatch is the id returned by
g_dbus_add_disconnect_watch; a zero id means the watch could not be
installed and the owner is not recorded (-EINVAL). -/
def obc_session_set_owner (s : OSession) (name : String)
    (freshWatch : Nat) : Int × OSession :=
  if freshWatch = 0 then (-EINVALERR, { s with watch := freshWatch })
  else (0, { s with watch := freshWatch, owner := some name })

/-- obc_session_create.  A NULL destination or a missing driver fails with
no session; a registry match is reused with obc_session_ref instead of
building a new session.  Either way the proceed label takes one more
reference for the in-flight callback_data, sends FindAdapter (source
supplied) or DefaultAdapter, records the pending call and installs the
owner.  driver is obc_driver_find's result, freshSid the identity of a
newly allocated session, freshReq the pending manager call, freshWatch the
owner watch id; allocations and the D-Bus sends are modelled as
succeeding.  (See obc_session_create below; the helpers come first.)

The proceed label of obc_session_create: the callback_data takes its
own reference, the FindAdapter/DefaultAdapter pending call is recorded and
the owner (when given) is installed. -/
def create_proceed (s0 : OSession) (owner : Option String)
    (freshReq freshWatch : Nat) : OSession :=
  let s1 := obc_session_ref s0
  let s2 := { s1 with pendingCalls := freshReq :: s1.pendingCalls }
  match owner with
  | some o => (obc_session_set_owner s2 o freshWatch).2
  | none => s2

/-- The fresh session built by obc_session_create when no registry entry
matches: refcount 1, the requested channel, source address or BDADDR_ANY,
and the driver found for the service. -/
def create_fresh (source : Option String) (dest : String) (channel : Nat)
    (d : Driver) (freshSid : Nat) : OSession :=
  { sid := freshSid, refcount := 1,
    src := (match source with
      | none => BDADDR_ANY
      | some a => str2ba a),
    dst := str2ba dest, channel := channel, driver := d,
    path := none, obex := false, ioChan := false,
    agent := none, callback := none, owner := none,
    watch := 0, pending := [], pendingCalls := [],
    adapter := none }

def obc_session_create (reg : List OSession) (source : Option String)
    (destination : Option String) (service : Option String) (channel : Nat)
    (owner : Option String) (driver : Option Driver)
    (freshSid freshReq freshWatch : Nat) :
    Option OSession × List OSession × List Effect :=
  match destination with
  | none => (none, reg, [])
  | some dest =>
    match session_find source dest service channel owner reg with
    | some s =>
      let s3 := create_proceed (obc_session_ref s) owner freshReq freshWatch
      (some s3, updateById s3 reg, [Effect.managerCall source])
    | none =>
      match driver with
      | none => (none, reg, [])
      | some d =>
        let s3 := create_proceed (create_fresh source dest channel d freshSid)
          owner freshReq freshWatch
        (some s3, updateById s3 reg, [Effect.managerCall source])

/-- A concrete registered, connected session for the reuse lookup. -/
def c6Registered : OSession :=
  { sampleSession with sid := 5, obex := true, channel := 9 }

/-- session_request: gate the start of a transfer behind the agent.  With
no agent registered, or a transfer exposing no path, the proceed callback
is scheduled on the idle loop; otherwise Agent.Request is sent.  agentOk
models obc_agent_request's result (failure leaves nothing scheduled and
returns the error, modelled as -ENOMEM). -/
def session_request (s : OSession) (t : Transfer) (agentOk : Bool) :
    Int × List Effect :=
  match s.agent, t.tpath with
  | none, _ => (0, [Effect.admissionStarted t.tid])
  | some _, none => (0, [Effect.admissionStarted t.tid])
  | some _, some _ =>
    if agentOk then (0, [Effect.admissionStarted t.tid])
    else (-ENOMEMERR, [])

/-- obc_transfer_register.  Modelled from the spec: the transfer object is
external to src/ and, on success, registration appends the transfer to the
session's pending queue through obc_session_add_transfer (which is in
session.c and uses g_slist_append).  newT is none when registration
fails. -/
def obc_transfer_register (s : OSession) (newT : Option Transfer) :
    Option Transfer × OSession × List Effect :=
  match newT with
  | none => (none, s, [])
  | some t =>
    (some t, { s with pending := s.pending ++ [t] },
      [Effect.transferRegistered t.tid])

/-- obc_transfer_unregister.  Modelled from the spec: the external transfer
teardown removes the transfer from the session's pending queue through
obc_session_remove_transfer (in session.c, g_slist_remove: first
occurrence). -/
def obc_transfer_unregister (s : OSession) (t : Transfer) :
    OSession × List Effect :=
  ({ s with pending := s.pending.erase t },
    [Effect.transferUnregistered t.tid])

/-- session_terminate_transfer: with a session-level callback the result
is delivered there and nothing else is touched; otherwise the transfer is
unregistered and, if another transfer is now first in the pending queue,
its admission cycle is started.  The surrounding ref/unref pair keeps the
session alive across the teardown. -/
def session_terminate_transfer (s : OSession) (reg : List OSession)
    (t : Transfer) (gerr : Option String) (agentOk : Bool) :
    Option OSession × List OSession × List Effect :=
  match s.callback with
  | some _ => (some s, reg, [Effect.sessionCbInvoked gerr])
  | none =>
    let s1 := obc_session_ref s
    let r2 := obc_transfer_unregister s1 t
    let es :=
      match r2.1.pending with
      | t2 :: _ => (session_request r2.1 t2 agentOk).2
      | [] => []
    let r3 := obc_session_unref_w r2.1 reg
    (r3.1, r3.2.1, r2.2 ++ es ++ r3.2.2)

/-- session_notify_complete: notify the agent (when one is registered and
the transfer has a path) and terminate the transfer with no error. -/
def session_notify_complete (s : OSession) (reg : List OSession)
    (t : Transfer) (agentOk : Bool) :
    Option OSession × List OSession × List Effect :=
  let note :=
    match s.agent, t.tpath with
    | some _, some p => [Effect.agentNotifyComplete p]
    | _, _ => []
  let r := session_terminate_transfer s reg t none agentOk
  (r.1, r.2.1, note ++ r.2.2)

/-- session_notify_error: notify the agent and terminate the transfer with
the error. -/
def session_notify_error (s : OSession) (reg : List OSession)
    (t : Transfer) (err : String) (agentOk : Bool) :
    Option OSession × List OSession × List Effect :=
  let note :=
    match s.agent, t.tpath with
    | some _, some p => [Effect.agentNotifyError p err]
    | _, _ => []
  let r := session_terminate_transfer s reg t (some err) agentOk
  (r.1, r.2.1, note ++ r.2.2)

/-- session_notify_progress: forward the byte count to the agent, and when
the transferred count equals the transfer's declared size treat the
transfer as complete. -/
def session_notify_progress (s : OSession) (reg : List OSession)
    (t : Transfer) (transferred : Int) (agentOk : Bool) :
    Option OSession × List OSession × List Effect :=
  let note :=
    match s.agent, t.tpath with
    | some _, some p => [Effect.agentNotifyProgress p transferred]
    | _, _ => []
  if transferred = t.size then
    let r := session_notify_complete s reg t agentOk
    (r.1, r.2.1, note ++ r.2.2)
  else
    (some s, reg, note)

/-- obc_session_get: fails with -ENOTCONN before touching anything when no
OBEX connection exists; otherwise registers the transfer, installs the
session-level callback when a completion function is supplied, and starts
the admission cycle. -/
def obc_session_get (s : OSession) (newT : Option Transfer)
    (hasFunc agentOk : Bool) : Int × OSession × List Effect :=
  if s.obex = false then (-ENOTCONNERR, s, [])
  else
    let r := obc_transfer_register s newT
    match r.1 with
    | none => (-EIOERR, s, [])
    | some t =>
      let s1 := if hasFunc then { r.2.1 with callback := some () } else r.2.1
      let rq := session_request s1 t agentOk
      if rq.1 < 0 then (rq.1, s1, r.2.2 ++ rq.2)
      else (0, s1, r.2.2 ++ rq.2)

/-- obc_session_send: register the transfer, attach the file (setFileErr
models obc_transfer_set_file), and start it only when it is first in the
pending queue; failures unregister it again. -/
def obc_session_send (s : OSession) (newT : Option Transfer)
    (setFileErr : Option Int) (agentOk : Bool) :
    Int × OSession × List Effect :=
  if s.obex = false then (-ENOTCONNERR, s, [])
  else
    let r := obc_transfer_register s newT
    match r.1 with
    | none => (-EINVALERR, s, [])
    | some t =>
      match setFileErr with
      | some e =>
        let ru := obc_transfer_unregister r.2.1 t
        (e, ru.1, r.2.2 ++ ru.2)
      | none =>
        if r.2.1.pending.head? ≠ some t then (0, r.2.1, r.2.2)
        else
          let rq := session_request r.2.1 t agentOk
          if rq.1 < 0 then
            let ru := obc_transfer_unregister r.2.1 t
            (rq.1, ru.1, r.2.2 ++ rq.2 ++ ru.2)
          else (0, r.2.1, r.2.2 ++ rq.2)

/-- obc_session_pull: register the transfer, install the session-level
callback when a completion function is supplied, start the admission
cycle, and unregister on failure. -/
def obc_session_pull (s : OSession) (newT : Option Transfer)
    (hasFunc agentOk : Bool) : Int × OSession × List Effect :=
  if s.obex = false then (-ENOTCONNERR, s, [])
  else
    let r := obc_transfer_register s newT
    match r.1 with
    | none => (-EIOERR, s, [])
    | some t =>
      let s1 := if hasFunc then { r.2.1 with callback := some () } else r.2.1
      let rq := session_request s1 t agentOk
      if rq.1 = 0 then (0, s1, r.2.2 ++ rq.2)
      else
        let ru := obc_transfer_unregister s1 t
        (rq.1, ru.1, r.2.2 ++ rq.2 ++ ru.2)

/-- obc_session_put: fails with -ENOTCONN when no OBEX connection exists
and with -EISCONN when a put is already pending; otherwise installs the
session-level callback (before registration, in put's order), registers
the transfer, sets its buffer and starts the admission cycle. -/
def obc_session_put (s : OSession) (buf : Option String)
    (newT : Option Transfer) (hasFunc agentOk : Bool) :
    Int × OSession × List Effect :=
  if s.obex = false then (-ENOTCONNERR, s, [])
  else if s.pending ≠ [] then (-EISCONNERR, s, [])
  else
    let s1 := if hasFunc then { s with callback := some () } else s
    let r := obc_transfer_register s1 newT
    match r.1 with
    | none => (-EIOERR, s1, [])
    | some t =>
      let rq := session_request r.2.1 t agentOk
      if rq.1 < 0 then (rq.1, r.2.1, r.2.2 ++ rq.2)
      else (0, r.2.1, r.2.2 ++ rq.2)

/-- A transfer with an exposed path. -/
def sampleTransfer : Transfer :=
  { tid := 10, tpath := some "/org/openobex/transfer0", size := 100 }

/-- A second queued transfer. -/
def sampleTransfer2 : Transfer :=
  { tid := 11, tpath := some "/org/openobex/transfer1", size := 200 }

/-- A connected session with a put already pending. -/
def c4Session : OSession :=
  { sampleSession with sid := 6, obex := true, pending := [sampleTransfer] }

/-- A session with an agent, no session-level callback, and two queued
transfers. -/
def c5Session : OSession :=
  { sampleSession with
    sid := 7
    obex := true
    agent := some ()
    pending := [sampleTransfer, sampleTransfer2] }

/-- folder_is_valid (phonebook-tracker.c): the fixed whitelist of valid
phonebook folders. -/
def folder_is_valid (folder : String) : Bool :=
  folder = "/" || folder = "/telecom" || folder = "/telecom/pb"
    || folder = "/telecom/ich" || folder = "/telecom/och"
    || folder = "/telecom/mch" || folder = "/telecom/cch"

/-- Model of glib g_build_filename for the two-component calls in
phonebook_set_folder: join with exactly one separator, dropping the first
component's trailing and the second component's leading slashes. -/
def g_build_filename (a b : String) : String :=
  let aChars := (a.toList.reverse.dropWhile (fun c => c = '/')).reverse
  let bChars := b.toList.dropWhile (fun c => c = '/')
  String.mk (aChars ++ '/' :: bChars)

/-- Model of glib g_path_get_basename: the last path component after
stripping trailing slashes ("/" for all-slash paths, "." for the empty
string; phonebook_set_folder only calls it on non-root folders). -/
def g_path_get_basename (p : String) : String :=
  let trimmed := p.toList.reverse.dropWhile (fun c => c = '/')
  if trimmed = [] then (if p.toList = [] then "." else "/")
  else String.mk (trimmed.takeWhile (fun c => c ≠ '/')).reverse

/-- Byte index of the last occurrence of needle in haystack, as computed
by g_strrstr (none when absent). -/
def g_strrstr_idx (haystack needle : String) : Option Nat :=
  ((List.range (haystack.toList.length + 1)).filter
    (fun i => needle.toList.isPrefixOf (haystack.toList.drop i))).getLast?

/-- The switch body of phonebook_set_folder, before the done label: the
computed path (none when the flags byte is invalid) and the
pre-validation error code.  Flag 0x02 enters a child (or returns to the
root when no child is named); flag 0x03 goes one level up, computing the
parent from the basename's last occurrence (len = tmp2 - (current + 1); a
negative len reaches g_strndup as a huge gsize and copies the whole
string). -/
def set_folder_path (current : String) (new_folder : Option String)
    (flags : Nat) : Option String × Int :=
  let root := current = "/"
  let child : Bool :=
    match new_folder with
    | some n => decide (n.length ≠ 0)
    | none => false
  if flags = 0x02 then
    if ¬ child then (some "/", 0)
    else (some (g_build_filename current (new_folder.getD "")), 0)
  else if flags = 0x03 then
    if root then (some "/", 0)
    else
      let tmp1 := g_path_get_basename current
      let idx := (g_strrstr_idx current tmp1).getD 0
      let len : Int := (idx : Int) - 1
      let base :=
        if len = 0 then "/"
        else if len < 0 then current
        else String.mk (current.toList.take len.toNat)
      if ¬ child then (some base, 0)
      else (some (g_build_filename base (new_folder.getD "")), 0)
  else (none, -EBADRERR)

/-- phonebook_set_folder: compute the new path, then the done label turns
any computed path outside the whitelist into -ENOENT, and a negative
result code frees the path and returns NULL. -/
def phonebook_set_folder (current : String) (new_folder : Option String)
    (flags : Nat) : Option String × Int :=
  let r := set_folder_path current new_folder flags
  let ret :=
    if r.1.isSome ∧ folder_is_valid (r.1.getD "") = false then -ENOENTERR
    else r.2
  if ret < 0 then (none, ret) else (r.1, ret)

theorem releaseSeenBeforeFree_true (l : List Effect) :
    releaseSeenBeforeFree true l = true := by
  induction l with
  | nil => rfl
  | cons e r ih =>
    cases e <;> simp [releaseSeenBeforeFree, ih]

theorem freeCount_session_free_effects (s : OSession) :
    freeCount (session_free_effects s) = 1 := by
  unfold freeCount session_free_effects
  simp only [List.countP_append, List.countP_map]
  have h1 : List.countP (isMemFree ∘ Effect.reqFinalized) s.pendingCalls = 0 := by
    rw [List.countP_eq_zero]
    intro a _
    simp [isMemFree]
  rw [h1]
  have h2 :
      List.countP isMemFree
        (if s.agent.isSome = true then [Effect.agentReleased] else []) = 0 := by
    split <;> simp [isMemFree, List.countP_cons]
  have h3 :
      List.countP isMemFree
        (if s.path.isSome = true then [Effect.interfaceUnregistered] else []) = 0 := by
    split <;> simp [isMemFree, List.countP_cons]
  rw [h2, h3]
  simp [List.countP_cons, isMemFree]

theorem freeCount_sendRelease (s : OSession) :
    freeCount (sendReleaseEffects s) = 0 := by
  unfold freeCount sendReleaseEffects
  cases s.adapter <;> simp [isMemFree, List.countP_cons]

theorem runRefOps_unref_free (s : OSession) (reg : List OSession)
    (rest : List RefOp) (h : s.refcount - 1 = 0) :
    runRefOps s reg (RefOp.unref :: rest) =
      (none, removeById s.sid reg,
        sendReleaseEffects s ++ session_free_effects s) := by
  simp [runRefOps, obc_session_unref_w, h]

theorem runRefOps_unref_live (s : OSession) (reg : List OSession)
    (rest : List RefOp) (h : ¬ s.refcount - 1 = 0) :
    runRefOps s reg (RefOp.unref :: rest) =
      runRefOps { s with refcount := s.refcount - 1 }
        (updateById { s with refcount := s.refcount - 1 } reg) rest := by
  simp only [runRefOps, obc_session_unref_w, h, if_neg]
  rcases hE : runRefOps { s with refcount := s.refcount - 1 }
      (updateById { s with refcount := s.refcount - 1 } reg) rest with ⟨o, r3, t2⟩
  simp [hE]

/-- C3: over every valid sequence of obc_session_ref / obc_session_unref
calls, the session memory is freed exactly once, precisely when the
reference count reaches zero; the freeing release sends the fire-and-forget
ReleaseSession notification to the adapter before any resource is freed. -/
theorem refcount_destroy_once (s : OSession) (reg : List OSession)
    (ops : List RefOp)
    (hpos : 0 < s.refcount)
    (hadp : s.adapter.isSome = true)
    (hvalid : validRefSeq s.refcount ops = true) :
    freeCount (runRefOps s reg ops).2.2 =
        (if finalRefCount s.refcount ops = 0 then 1 else 0)
      ∧ releaseSeenBeforeFree false (runRefOps s reg ops).2.2 = true
      ∧ ((runRefOps s reg ops).1 = none ↔ finalRefCount s.refcount ops = 0) := by
  induction ops generalizing s reg with
  | nil =>
    refine ⟨?_, rfl, ?_⟩
    · simp only [runRefOps, freeCount, List.countP_nil, finalRefCount,
        List.foldl_nil]
      rw [if_neg (by omega)]
    · simp only [runRefOps, finalRefCount, List.foldl_nil]
      constructor
      · intro h; simp at h
      · intro h; exact absurd h (by omega)
  | cons op rest ih =>
    cases op with
    | ref =>
      have hv : validRefSeq (s.refcount + 1) rest = true := by
        simpa [validRefSeq, applyRefOp, hpos] using hvalid
      have hrec := ih (obc_session_ref s) reg
        (by show 0 < s.refcount + 1; omega) hadp hv
      simpa [runRefOps, finalRefCount, applyRefOp, obc_session_ref,
        List.foldl_cons] using hrec
    | unref =>
      have hv : validRefSeq (s.refcount - 1) rest = true := by
        simpa [validRefSeq, applyRefOp, hpos] using hvalid
      by_cases h1 : s.refcount - 1 = 0
      · have hrest : rest = [] := by
          cases rest with
          | nil => rfl
          | cons a r =>
            exfalso
            rw [h1] at hv
            simp [validRefSeq] at hv
        subst hrest
        rw [runRefOps_unref_free s reg [] h1]
        have hfin : finalRefCount s.refcount [RefOp.unref] = 0 := by
          simpa [finalRefCount, applyRefOp] using h1
        refine ⟨?_, ?_, ?_⟩
        · simp only [hfin, if_pos]
          unfold freeCount
          rw [List.countP_append]
          have := freeCount_sendRelease s
          have := freeCount_session_free_effects s
          unfold freeCount at *
          omega
        · rcases Option.isSome_iff_exists.mp hadp with ⟨a, ha⟩
          simp only [sendReleaseEffects, ha, List.cons_append,
            List.nil_append, releaseSeenBeforeFree]
          exact releaseSeenBeforeFree_true _
        · simp [hfin]
      · rw [runRefOps_unref_live s reg rest h1]
        have hrec := ih { s with refcount := s.refcount - 1 }
          (updateById { s with refcount := s.refcount - 1 } reg)
          (by show 0 < s.refcount - 1; omega) hadp hv
        simpa [finalRefCount, applyRefOp, List.foldl_cons] using hrec

theorem refcount_destroy_once_witness :
    (0 : Int) < sampleSession.refcount
      ∧ sampleSession.adapter.isSome = true
      ∧ validRefSeq sampleSession.refcount
          [RefOp.ref, RefOp.unref, RefOp.unref, RefOp.unref] = true
      ∧ (freeCount (runRefOps sampleSession []
            [RefOp.ref, RefOp.unref, RefOp.unref, RefOp.unref]).2.2 =
          (if finalRefCount sampleSession.refcount
              [RefOp.ref, RefOp.unref, RefOp.unref, RefOp.unref] = 0
            then 1 else 0)
        ∧ releaseSeenBeforeFree false (runRefOps sampleSession []
            [RefOp.ref, RefOp.unref, RefOp.unref, RefOp.unref]).2.2 = true
        ∧ ((runRefOps sampleSession []
              [RefOp.ref, RefOp.unref, RefOp.unref, RefOp.unref]).1 = none ↔
            finalRefCount sampleSession.refcount
              [RefOp.ref, RefOp.unref, RefOp.unref, RefOp.unref] = 0)) :=
  ⟨by decide, by decide, by decide,
    refcount_destroy_once sampleSession []
      [RefOp.ref, RefOp.unref, RefOp.unref, RefOp.unref]
      (by decide) (by decide) (by decide)⟩

/-- The trace of obc_session_unref_w only holds teardown effects, so any
predicate false on those counts zero over it. -/
theorem countP_unref_zero (p : Effect → Bool) (s : OSession)
    (reg : List OSession)
    (h1 : ∀ a, p (Effect.releaseAdmission a) = false)
    (h2 : ∀ i, p (Effect.reqFinalized i) = false)
    (h3 : p Effect.agentReleased = false)
    (h4 : p Effect.interfaceUnregistered = false)
    (h5 : ∀ i, p (Effect.registryRemoved i) = false)
    (h6 : ∀ i, p (Effect.memFree i) = false) :
    List.countP p (obc_session_unref_w s reg).2.2 = 0 := by
  unfold obc_session_unref_w
  by_cases h : s.refcount - 1 = 0
  · simp only [h, if_pos]
    unfold sendReleaseEffects session_free_effects
    cases hA : s.adapter <;>
      simp_all [List.countP_append, List.countP_cons,
        List.countP_eq_zero, isMemFree]
  · simp [h]

/-- C8: session_connect never starts service discovery when the channel is
already known; on a fresh bring-up (no obex handle) a known channel makes
it connect the transport directly to that channel; and discovery is started
exactly when the channel is unknown (zero) and no OBEX connection exists. -/
theorem channel_known_skips_discovery (s : OSession) (rfcommOk sdpOk : Bool) :
    (s.channel ≠ 0 →
        Effect.startDiscovery ∉ (session_connect s rfcommOk sdpOk).2.2
          ∧ (s.obex = false →
              Effect.transportConnect s.channel ∈
                (session_connect s rfcommOk sdpOk).2.2))
      ∧ (Effect.startDiscovery ∈ (session_connect s rfcommOk sdpOk).2.2 ↔
          (s.channel = 0 ∧ s.obex = false)) := by
  constructor
  · intro hc
    have hc' : 0 < s.channel := Nat.pos_of_ne_zero hc
    unfold session_connect
    by_cases ho : s.obex
    · simp [ho]
    · cases hr : rfcommOk <;> simp [ho, hc', hr]
  · unfold session_connect
    by_cases ho : s.obex
    · simp [ho]
    · by_cases hc : s.channel = 0
      · cases hs : sdpOk <;> simp [ho, hc, hs]
      · have hc' : 0 < s.channel := Nat.pos_of_ne_zero hc
        cases hr : rfcommOk <;> simp [ho, hc', hr, hc]

theorem channel_known_skips_discovery_witness :
    sampleSessionCh9.channel ≠ 0
      ∧ sampleSessionCh9.obex = false
      ∧ Effect.startDiscovery ∉ (session_connect sampleSessionCh9 true true).2.2
      ∧ Effect.transportConnect sampleSessionCh9.channel ∈
          (session_connect sampleSessionCh9 true true).2.2 :=
  ⟨by decide, by decide,
    ((channel_known_skips_discovery sampleSessionCh9 true true).1
      (by decide)).1,
    ((channel_known_skips_discovery sampleSessionCh9 true true).1
      (by decide)).2 (by decide)⟩

/-- C7: when the service search yields no record carrying a positive RFCOMM
channel, search_callback invokes the connect completion callback exactly
once, with the error "Unable to find service record", and never attempts an
RFCOMM transport connect. -/
theorem search_no_record_fails (s : OSession) (reg : List OSession)
    (status : Nat) (typeOk parseOk : Bool) (records : List Int)
    (rfcommOk : Bool)
    (hrec : ∀ ch ∈ records, ch ≤ 0) :
    List.countP
        (fun e =>
          e = Effect.callbackInvoked (some "Unable to find service record"))
        (search_callback s reg status typeOk parseOk records rfcommOk).2.2 = 1
      ∧ List.countP isTransportConnect
          (search_callback s reg status typeOk parseOk records rfcommOk).2.2
        = 0 := by
  have hch : firstRfcommChannel records = 0 := by
    unfold firstRfcommChannel
    have : records.find? (fun ch => decide (0 < ch)) = none := by
      rw [List.find?_eq_none]
      intro x hx
      have := hrec x hx
      simp
      omega
    rw [this]
  have hgoal : ∀ s1 reg1,
      List.countP
          (fun e =>
            e = Effect.callbackInvoked (some "Unable to find service record"))
          (searchFailed s1 reg1).2.2 = 1
        ∧ List.countP isTransportConnect (searchFailed s1 reg1).2.2 = 0 := by
    intro s1 reg1
    unfold searchFailed
    constructor
    · simp only [List.countP_append, List.countP_cons]
      have h0 := countP_unref_zero
        (fun e =>
          e = Effect.callbackInvoked (some "Unable to find service record"))
        { s1 with ioChan := false } reg1
        (by intro a; simp) (by intro i; simp) (by simp) (by simp)
        (by intro i; simp) (by intro i; simp)
      simp_all
    · simp only [List.countP_append, List.countP_cons]
      have h0 := countP_unref_zero isTransportConnect
        { s1 with ioChan := false } reg1
        (by intro a; simp [isTransportConnect])
        (by intro i; simp [isTransportConnect])
        (by simp [isTransportConnect]) (by simp [isTransportConnect])
        (by intro i; simp [isTransportConnect])
        (by intro i; simp [isTransportConnect])
      simp_all [isTransportConnect]
  unfold search_callback
  by_cases h1 : status ≠ 0 ∨ typeOk = false
  · simp only [h1, if_pos]
    exact hgoal s reg
  · simp only [h1, if_neg, if_false]
    by_cases h2 : parseOk = false
    · simp only [h2, if_pos]
      exact hgoal s reg
    · simp only [h2, if_neg, hch, if_pos]
      exact hgoal s reg

theorem search_no_record_fails_witness :
    (∀ ch ∈ [(-1 : Int), 0], ch ≤ 0)
      ∧ (List.countP
          (fun e =>
            e = Effect.callbackInvoked (some "Unable to find service record"))
          (search_callback sampleSession [] 0 true true [-1, 0] true).2.2 = 1
        ∧ List.countP isTransportConnect
            (search_callback sampleSession [] 0 true true [-1, 0] true).2.2
          = 0) :=
  ⟨by decide,
    search_no_record_fails sampleSession [] 0 true true [-1, 0] true
      (by decide)⟩

theorem unref_refcount (s : OSession) (reg : List OSession) :
    ((obc_session_unref_w s reg).1 = none → s.refcount = 1)
      ∧ (∀ s2, (obc_session_unref_w s reg).1 = some s2 →
          s2.refcount = s.refcount - 1) := by
  unfold obc_session_unref_w
  by_cases h : s.refcount - 1 = 0
  · simp only [h, if_pos]
    constructor
    · intro _; omega
    · intro s2 hs2; simp at hs2
  · simp only [h, if_neg, if_false]
    constructor
    · intro hn; simp at hn
    · intro s2 hs2
      simp only [Option.some_inj] at hs2
      subst hs2
      rfl

/-- C1 counterexample: a concrete bring-up attempt whose adapter-manager
step fails with an error reply.  The connect completion callback is invoked
zero times, not exactly once as claimed. -/
theorem manager_failure_no_callback_cex :
    List.countP isConnectCbInvoked
        (manager_reply sampleSession [] 3
          (ManagerReply.errReply "org.bluez.Error.Failed" "failed")
          4 true).2.2 = 0
      ∧ ¬ List.countP isConnectCbInvoked
          (manager_reply sampleSession [] 3
            (ManagerReply.errReply "org.bluez.Error.Failed" "failed")
            4 true).2.2 = 1 := by decide

/-- C1 amended: when the adapter-manager step of a bring-up attempt fails
(error reply, reply without an adapter object path, or error reply to the
admission request), the attempt terminates with no automatic retry and the
attempt's session reference is released, but the caller's connect
completion callback is never invoked: the failure is not surfaced. -/
theorem bring_up_manager_failure_drops_attempt
    (s : OSession) (reg : List OSession) (reqId freshReq : Nat)
    (sendOk rfcommOk sdpOk : Bool) (nm ms : String) :
    attemptDropped s.refcount
        (manager_reply s reg reqId (ManagerReply.errReply nm ms)
          freshReq sendOk)
      ∧ attemptDropped s.refcount
          (manager_reply s reg reqId (ManagerReply.okReply none)
            freshReq sendOk)
      ∧ attemptDropped s.refcount
          (adapter_reply s reg reqId (AdapterReply.errReply nm ms)
            rfcommOk sdpOk) := by
  have key : ∀ s1 : OSession, s1.refcount = s.refcount →
      attemptDropped s.refcount
        ((obc_session_unref_w s1 reg).1, (obc_session_unref_w s1 reg).2.1,
          [Effect.reqFinalized reqId] ++ (obc_session_unref_w s1 reg).2.2
            ++ [Effect.callbackFreed]) := by
    intro s1 hrc
    unfold attemptDropped
    refine ⟨?_, ?_, ?_, ?_, ?_⟩
    · simp only [List.countP_append, List.countP_cons]
      have h0 := countP_unref_zero isConnectCbInvoked s1 reg
        (by intro a; rfl) (by intro i; rfl) rfl rfl
        (by intro i; rfl) (by intro i; rfl)
      simp [h0, isConnectCbInvoked]
    · simp only [List.countP_append, List.countP_cons]
      have h0 := countP_unref_zero isManagerCall s1 reg
        (by intro a; rfl) (by intro i; rfl) rfl rfl
        (by intro i; rfl) (by intro i; rfl)
      simp [h0, isManagerCall]
    · simp only [List.countP_append, List.countP_cons]
      have h0 := countP_unref_zero isRequestAdmission s1 reg
        (by intro a; rfl) (by intro i; rfl) rfl rfl
        (by intro i; rfl) (by intro i; rfl)
      simp [h0, isRequestAdmission]
    · intro s2 hs2
      have := (unref_refcount s1 reg).2 s2 hs2
      omega
    · intro hn
      have := (unref_refcount s1 reg).1 hn
      omega
  refine ⟨?_, ?_, ?_⟩
  · rcases hE : obc_session_unref_w
        { s with pendingCalls := s.pendingCalls.erase reqId } reg
      with ⟨o, reg2, tr⟩
    have hk := key { s with pendingCalls := s.pendingCalls.erase reqId } rfl
    rw [hE] at hk
    simpa [manager_reply, hE] using hk
  · rcases hE : obc_session_unref_w
        { s with pendingCalls := s.pendingCalls.erase reqId } reg
      with ⟨o, reg2, tr⟩
    have hk := key { s with pendingCalls := s.pendingCalls.erase reqId } rfl
    rw [hE] at hk
    simpa [manager_reply, hE] using hk
  · rcases hE : obc_session_unref_w
        { s with pendingCalls := s.pendingCalls.erase reqId } reg
      with ⟨o, reg2, tr⟩
    have hk := key { s with pendingCalls := s.pendingCalls.erase reqId } rfl
    rw [hE] at hk
    simpa [adapter_reply, hE] using hk

theorem bring_up_manager_failure_drops_attempt_witness :
    attemptDropped sampleSession.refcount
      (manager_reply sampleSession [] 3
        (ManagerReply.errReply "org.bluez.Error.Failed" "failed") 4 true) :=
  (bring_up_manager_failure_drops_attempt sampleSession [] 3 4
    true true true "org.bluez.Error.Failed" "failed").1

theorem countP_regIns_unref (s : OSession) (reg : List OSession) :
    List.countP isRegistryInserted (obc_session_unref_w s reg).2.2 = 0 :=
  countP_unref_zero isRegistryInserted s reg
    (by intro a; rfl) (by intro i; rfl) rfl rfl
    (by intro i; rfl) (by intro i; rfl)

theorem countP_regIns_session_connect (s : OSession) (rfcommOk sdpOk : Bool) :
    List.countP isRegistryInserted (session_connect s rfcommOk sdpOk).2.2
      = 0 := by
  unfold session_connect
  by_cases ho : s.obex <;> by_cases hc : 0 < s.channel <;>
    cases rfcommOk <;> cases sdpOk <;>
    simp [ho, hc, isRegistryInserted, List.countP_cons]

/-- C2 counterexample: after rfcomm_callback merely issues the OBEX CONNECT
request, the session is already in the registry (and the connect completion
callback has not fired, so no handshake success has occurred); when the
handshake then completes with a failure response it still stays in the
registry.  Insertion therefore does not happen upon handshake success. -/
theorem registry_insert_before_handshake_cex :
    (c2RunA.2.1.map OSession.sid = [3]
        ∧ List.countP isConnectCbInvoked c2RunA.2.2 = 0
        ∧ List.countP isRegistryInserted c2RunA.2.2 = 1)
      ∧ (List.countP
            (fun e => e = Effect.callbackInvoked (some "OBEX Connect failed"))
            c2RunB.2.2 = 1
          ∧ c2RunB.2.1.map OSession.sid = [3]) := by decide

/-- C2 amended: the session is inserted into the process-wide registry
exactly when the RFCOMM transport has connected, the OBEX engine is
created, and the OBEX CONNECT request is issued without synchronous error
(the start of the handshake) — and at no other bring-up step: neither the
manager/admission replies, nor service discovery, nor the handshake
completion itself ever insert it. -/
theorem registry_insertion_point
    (s : OSession) (reg : List OSession) (reqId freshReq : Nat)
    (mreply : ManagerReply) (areply : AdapterReply)
    (sendOk rfcommOk sdpOk : Bool)
    (err issueErr : Option String) (gobexNewOk : Bool)
    (rspCode status : Nat) (typeOk parseOk rfOk2 : Bool)
    (records : List Int) :
    List.countP isRegistryInserted
        (rfcomm_callback s reg err gobexNewOk issueErr).2.2 =
      (if err = none ∧ gobexNewOk = true ∧ issueErr = none then 1 else 0)
      ∧ List.countP isRegistryInserted
          (manager_reply s reg reqId mreply freshReq sendOk).2.2 = 0
      ∧ List.countP isRegistryInserted
          (adapter_reply s reg reqId areply rfcommOk sdpOk).2.2 = 0
      ∧ List.countP isRegistryInserted (connect_cb s reg err rspCode).2.2 = 0
      ∧ List.countP isRegistryInserted
          (search_callback s reg status typeOk parseOk records rfOk2).2.2
        = 0 := by
  have hfail : ∀ s1 reg1, List.countP isRegistryInserted
      (searchFailed s1 reg1).2.2 = 0 := by
    intro s1 reg1
    unfold searchFailed
    rcases hE : obc_session_unref_w { s1 with ioChan := false } reg1
      with ⟨o, reg2, tr⟩
    have h0 := countP_regIns_unref { s1 with ioChan := false } reg1
    rw [hE] at h0
    simp [hE, List.countP_append, List.countP_cons, h0, isRegistryInserted]
  refine ⟨?_, ?_, ?_, ?_, ?_⟩
  · unfold rfcomm_callback
    cases err with
    | some e =>
      rcases hE : obc_session_unref_w s reg with ⟨o, reg2, tr⟩
      have h0 := countP_regIns_unref s reg
      rw [hE] at h0
      simp [hE, List.countP_append, List.countP_cons, h0, isRegistryInserted]
    | none =>
      cases gobexNewOk with
      | false =>
        rcases hE : obc_session_unref_w s reg with ⟨o, reg2, tr⟩
        have h0 := countP_regIns_unref s reg
        rw [hE] at h0
        simp [hE, List.countP_append, List.countP_cons, h0,
          isRegistryInserted]
      | true =>
        cases issueErr with
        | some e =>
          rcases hE : obc_session_unref_w { s with ioChan := false } reg
            with ⟨o, reg2, tr⟩
          have h0 := countP_regIns_unref { s with ioChan := false } reg
          rw [hE] at h0
          simp [hE, List.countP_append, List.countP_cons, h0,
            isRegistryInserted]
        | none =>
          simp [List.countP_cons, isRegistryInserted]
  · unfold manager_reply
    cases mreply with
    | errReply nm ms =>
      rcases hE : obc_session_unref_w
          { s with pendingCalls := s.pendingCalls.erase reqId } reg
        with ⟨o, reg2, tr⟩
      have h0 := countP_regIns_unref
        { s with pendingCalls := s.pendingCalls.erase reqId } reg
      rw [hE] at h0
      simp [hE, List.countP_append, List.countP_cons, h0, isRegistryInserted]
    | okReply ap =>
      cases ap with
      | none =>
        rcases hE : obc_session_unref_w
            { s with pendingCalls := s.pendingCalls.erase reqId } reg
          with ⟨o, reg2, tr⟩
        have h0 := countP_regIns_unref
          { s with pendingCalls := s.pendingCalls.erase reqId } reg
        rw [hE] at h0
        simp [hE, List.countP_append, List.countP_cons, h0,
          isRegistryInserted]
      | some ap =>
        cases sendOk with
        | true => simp [List.countP_append, List.countP_cons,
            isRegistryInserted]
        | false =>
          rcases hE : obc_session_unref_w { s with pendingCalls := s.pendingCalls.erase reqId, adapter := some ap } reg with ⟨o, reg2, tr⟩
          have h0 := countP_regIns_unref { s with pendingCalls := s.pendingCalls.erase reqId, adapter := some ap } reg
          rw [hE] at h0
          simp [hE, List.countP_append, List.countP_cons, h0,
            isRegistryInserted]
  · unfold adapter_reply
    cases areply with
    | errReply nm ms =>
      rcases hE : obc_session_unref_w
          { s with pendingCalls := s.pendingCalls.erase reqId } reg
        with ⟨o, reg2, tr⟩
      have h0 := countP_regIns_unref
        { s with pendingCalls := s.pendingCalls.erase reqId } reg
      rw [hE] at h0
      simp [hE, List.countP_append, List.countP_cons, h0, isRegistryInserted]
    | okReply =>
      have hsc := countP_regIns_session_connect
        { s with pendingCalls := s.pendingCalls.erase reqId } rfcommOk sdpOk
      by_cases hlt : (session_connect
          { s with pendingCalls := s.pendingCalls.erase reqId }
          rfcommOk sdpOk).1 < 0
      · rcases hE : obc_session_unref_w (session_connect
            { s with pendingCalls := s.pendingCalls.erase reqId }
            rfcommOk sdpOk).2.1 reg with ⟨o, reg2, tr⟩
        have h0 := countP_regIns_unref (session_connect
            { s with pendingCalls := s.pendingCalls.erase reqId }
            rfcommOk sdpOk).2.1 reg
        rw [hE] at h0
        simp [hlt, hE, List.countP_append, List.countP_cons, h0, hsc,
          isRegistryInserted]
      · simp [hlt, List.countP_append, List.countP_cons, hsc,
          isRegistryInserted]
  · unfold connect_cb
    rcases hE : obc_session_unref_w s reg with ⟨o, reg2, tr⟩
    have h0 := countP_regIns_unref s reg
    rw [hE] at h0
    simp [hE, List.countP_append, List.countP_cons, h0, isRegistryInserted]
  · unfold search_callback
    by_cases h1 : status ≠ 0 ∨ typeOk = false
    · simp only [h1, if_pos]
      exact hfail s reg
    · simp only [h1, if_neg, if_false]
      by_cases h2 : parseOk = false
      · simp only [h2, if_pos]
        exact hfail s reg
      · simp only [h2, if_neg, if_false]
        by_cases h3 : firstRfcommChannel records = 0
        · simp only [h3, if_pos]
          exact hfail s reg
        · cases rfOk2 with
          | true =>
            simp [h3, List.countP_cons, isRegistryInserted]
          | false =>
            rcases hE : obc_session_unref_w { s with channel := firstRfcommChannel records, ioChan := false } reg with ⟨o, reg2, tr⟩
            have h0 := countP_regIns_unref { s with channel := firstRfcommChannel records, ioChan := false } reg
            rw [hE] at h0
            simp [h3, hE, List.countP_append, List.countP_cons, h0,
              isRegistryInserted]

theorem registry_insertion_point_witness :
    List.countP isRegistryInserted
        (rfcomm_callback sampleSession [] none true none).2.2 =
      (if (none : Option String) = none ∧ true = true
          ∧ (none : Option String) = none then 1 else 0) :=
  (registry_insertion_point sampleSession [] 3 4
    (ManagerReply.okReply none) AdapterReply.okReply true true true
    none none true 0x20 0 true true true []).1

theorem updateById_map_sid (x : OSession) (reg : List OSession) :
    (updateById x reg).map OSession.sid = reg.map OSession.sid := by
  unfold updateById
  induction reg with
  | nil => rfl
  | cons t rest ih =>
    by_cases h : t.sid = x.sid <;> simp [h, ih]

theorem updateById_not_mem (x : OSession) (reg : List OSession)
    (h : ∀ t ∈ reg, t.sid ≠ x.sid) : updateById x reg = reg := by
  unfold updateById
  induction reg with
  | nil => rfl
  | cons t rest ih =>
    have ht := h t (by simp)
    have hrest : ∀ t2 ∈ rest, t2.sid ≠ x.sid := by
      intro t2 h2
      exact h t2 (by simp [h2])
    simp [ht, ih hrest]

theorem session_find_cons (source : Option String) (destination : String)
    (service : Option String) (channel : Nat) (owner : Option String)
    (s : OSession) (rest : List OSession) :
    session_find source destination service channel owner (s :: rest)
      = if srcMismatch source s then
          session_find source destination service channel owner rest
        else if s.dst ≠ str2ba destination then
          session_find source destination service channel owner rest
        else if s.driver.service ≠ service then
          session_find source destination service channel owner rest
        else if channel ≠ 0 ∧ s.channel ≠ channel then
          session_find source destination service channel owner rest
        else if s.owner ≠ owner then
          session_find source destination service channel owner rest
        else some s := rfl

theorem session_find_eq_find (source : Option String) (destination : String)
    (service : Option String) (channel : Nat) (owner : Option String)
    (reg : List OSession) :
    session_find source destination service channel owner reg
      = reg.find? (session_match source destination service channel owner)
      := by
  induction reg with
  | nil => rfl
  | cons s rest ih =>
    by_cases hm : session_match source destination service channel owner s
    · rw [List.find?_cons_of_pos _ hm]
      unfold session_match at hm
      simp only [Bool.and_eq_true, Bool.or_eq_true, decide_eq_true_eq] at hm
      obtain ⟨⟨⟨⟨hsrc, hdst⟩, hsvc⟩, hch⟩, hown⟩ := hm
      have hsm : srcMismatch source s = false := by
        unfold srcMismatch
        unfold srcMatches at hsrc
        cases source with
        | none => rfl
        | some a =>
          simp only [decide_eq_true_eq] at hsrc
          simp [hsrc]
      rw [session_find_cons, hsm]
      rw [if_neg (by simp), if_neg (by simp [hdst]), if_neg (by simp [hsvc]),
        if_neg (by omega), if_neg (by simp [hown])]
    · rw [List.find?_cons_of_neg _ hm]
      rw [← ih]
      unfold session_match at hm
      simp only [Bool.and_eq_true, Bool.or_eq_true, decide_eq_true_eq,
        not_and, not_or] at hm
      rw [session_find_cons]
      by_cases h1 : srcMismatch source s
      · rw [h1]
        simp
      · rw [Bool.eq_false_iff.mpr h1]
        simp only [Bool.false_eq_true, if_false]
        by_cases h2 : s.dst ≠ str2ba destination
        · rw [if_pos h2]
        · rw [if_neg h2]
          by_cases h3 : s.driver.service ≠ service
          · rw [if_pos h3]
          · rw [if_neg h3]
            by_cases h4 : channel ≠ 0 ∧ s.channel ≠ channel
            · rw [if_pos h4]
            · rw [if_neg h4]
              by_cases h5 : s.owner ≠ owner
              · rw [if_pos h5]
              · exfalso
                push_neg at h2 h3 h4 h5
                have hsrcOk : srcMatches source s = true := by
                  unfold srcMismatch at h1
                  unfold srcMatches
                  cases source with
                  | none => rfl
                  | some a =>
                    simp only [decide_eq_true_eq] at h1
                    push_neg at h1
                    simp [h1]
                have hchOk : channel = 0 ∨ s.channel = channel := by
                  by_cases hc0 : channel = 0
                  · exact Or.inl hc0
                  · exact Or.inr (h4 hc0)
                exact hm ⟨⟨⟨hsrcOk, h2⟩, h3⟩, hchOk⟩ h5

theorem create_proceed_sid (s0 : OSession) (owner : Option String)
    (freshReq freshWatch : Nat) :
    (create_proceed s0 owner freshReq freshWatch).sid = s0.sid := by
  unfold create_proceed obc_session_set_owner
  cases owner with
  | none => rfl
  | some o => by_cases hw : freshWatch = 0 <;> simp [hw, obc_session_ref]

theorem create_proceed_refcount (s0 : OSession) (owner : Option String)
    (freshReq freshWatch : Nat) :
    (create_proceed s0 owner freshReq freshWatch).refcount
      = s0.refcount + 1 := by
  unfold create_proceed obc_session_set_owner
  cases owner with
  | none => rfl
  | some o => by_cases hw : freshWatch = 0 <;> simp [hw, obc_session_ref]

/-- C6: (1) the reuse lookup returns exactly the first registry entry
matching every supplied non-wildcard field of the tuple (source or any,
destination, service, channel or unconstrained, owner); (2) when a match
exists obc_session_create reuses it — the returned session is the matched
entry with its reference count incremented (by two: the caller's handle
and the in-flight connect callback) and no new session is built; (3) when
no entry matches a fresh session is built and the registry is unchanged;
(4) entries matching one owner never match a different owner, so requests
differing only in owner never share a session. -/
theorem session_reuse_iff (reg : List OSession) (source : Option String)
    (dest : String) (service : Option String) (channel : Nat)
    (owner : Option String) (d : Driver)
    (freshSid freshReq freshWatch : Nat)
    (hfresh : ∀ t ∈ reg, t.sid ≠ freshSid) :
    (session_find source dest service channel owner reg
        = reg.find? (session_match source dest service channel owner))
      ∧ (∀ s, session_find source dest service channel owner reg = some s →
          ∃ s3, (obc_session_create reg source (some dest) service channel
                owner (some d) freshSid freshReq freshWatch).1 = some s3
            ∧ s3.sid = s.sid ∧ s3.refcount = s.refcount + 2
            ∧ (obc_session_create reg source (some dest) service channel
                owner (some d) freshSid freshReq freshWatch).2.1.map
                  OSession.sid = reg.map OSession.sid)
      ∧ (session_find source dest service channel owner reg = none →
          ∃ s3, (obc_session_create reg source (some dest) service channel
                owner (some d) freshSid freshReq freshWatch).1 = some s3
            ∧ s3.sid = freshSid ∧ s3.refcount = 2
            ∧ (obc_session_create reg source (some dest) service channel
                owner (some d) freshSid freshReq freshWatch).2.1 = reg)
      ∧ (∀ s o2, owner ≠ o2 →
          session_match source dest service channel owner s = true →
          session_match source dest service channel o2 s = false) := by
  refine ⟨session_find_eq_find source dest service channel owner reg,
    ?_, ?_, ?_⟩
  · intro s hs
    simp only [obc_session_create, hs]
    refine ⟨_, rfl, ?_, ?_, updateById_map_sid _ reg⟩
    · rw [create_proceed_sid]
      rfl
    · rw [create_proceed_refcount]
      show s.refcount + 1 + 1 = s.refcount + 2
      omega
  · intro hnone
    simp only [obc_session_create, hnone]
    refine ⟨_, rfl, ?_, ?_, ?_⟩
    · rw [create_proceed_sid]
      rfl
    · rw [create_proceed_refcount]
      show (1 : Int) + 1 = 2
      norm_num
    · apply updateById_not_mem
      intro t ht
      rw [create_proceed_sid]
      exact hfresh t ht
  · intro s o2 hne hm
    unfold session_match at hm ⊢
    simp only [Bool.and_eq_true, decide_eq_true_eq] at hm
    obtain ⟨_, hown⟩ := hm
    simp only [Bool.and_eq_false_iff]
    right
    rw [hown]
    simpa using hne

theorem session_reuse_iff_witness :
    (∀ t ∈ [c6Registered], t.sid ≠ 77)
      ∧ session_find (some "00:11:22:33:44:55") "AA:BB:CC:DD:EE:FF"
          (some "message-access") 9 (some ":1.42") [c6Registered]
          = some c6Registered
      ∧ ∃ s3, (obc_session_create [c6Registered] (some "00:11:22:33:44:55")
            (some "AA:BB:CC:DD:EE:FF") (some "message-access") 9
            (some ":1.42") (some sampleDriver) 77 8 9).1 = some s3
          ∧ s3.sid = c6Registered.sid
          ∧ s3.refcount = c6Registered.refcount + 2
          ∧ (obc_session_create [c6Registered] (some "00:11:22:33:44:55")
              (some "AA:BB:CC:DD:EE:FF") (some "message-access") 9
              (some ":1.42") (some sampleDriver) 77 8 9).2.1.map
                OSession.sid = [c6Registered].map OSession.sid :=
  ⟨by decide, by decide,
    (session_reuse_iff [c6Registered] (some "00:11:22:33:44:55")
      "AA:BB:CC:DD:EE:FF" (some "message-access") 9 (some ":1.42")
      sampleDriver 77 8 9 (by decide)).2.1 c6Registered (by decide)⟩

/-- C4: a put on a connected session with a non-empty pending queue fails
immediately with -EISCONN; the session — queue, agent, callback and all
other fields — is returned unchanged and nothing is registered or sent. -/
theorem put_while_pending_eisconn (s : OSession) (buf : Option String)
    (newT : Option Transfer) (hasFunc agentOk : Bool)
    (hobex : s.obex = true) (hpend : s.pending ≠ []) :
    obc_session_put s buf newT hasFunc agentOk = (-EISCONNERR, s, []) := by
  unfold obc_session_put
  rw [hobex]
  simp [hpend]

theorem put_while_pending_eisconn_witness :
    c4Session.obex = true ∧ c4Session.pending ≠ []
      ∧ obc_session_put c4Session (some "data") (some sampleTransfer2)
          true true = (-EISCONNERR, c4Session, []) :=
  ⟨by decide, by decide,
    put_while_pending_eisconn c4Session (some "data") (some sampleTransfer2)
      true true (by decide) (by decide)⟩

/-- C10: on a session with no OBEX connection, get, send, pull and put all
fail immediately with -ENOTCONN, before registering a transfer: the
session is returned unchanged and the trace is empty. -/
theorem not_connected_enotconn (s : OSession) (newT : Option Transfer)
    (hasFunc agentOk : Bool) (buf : Option String) (setFileErr : Option Int)
    (hobex : s.obex = false) :
    obc_session_get s newT hasFunc agentOk = (-ENOTCONNERR, s, [])
      ∧ obc_session_send s newT setFileErr agentOk = (-ENOTCONNERR, s, [])
      ∧ obc_session_pull s newT hasFunc agentOk = (-ENOTCONNERR, s, [])
      ∧ obc_session_put s buf newT hasFunc agentOk
        = (-ENOTCONNERR, s, []) := by
  unfold obc_session_get obc_session_send obc_session_pull obc_session_put
  rw [hobex]
  simp

theorem not_connected_enotconn_witness :
    sampleSession.obex = false
      ∧ obc_session_get sampleSession (some sampleTransfer) true true
          = (-ENOTCONNERR, sampleSession, [])
      ∧ obc_session_send sampleSession (some sampleTransfer) none true
          = (-ENOTCONNERR, sampleSession, [])
      ∧ obc_session_pull sampleSession (some sampleTransfer) true true
          = (-ENOTCONNERR, sampleSession, [])
      ∧ obc_session_put sampleSession (some "x") (some sampleTransfer)
          true true = (-ENOTCONNERR, sampleSession, []) :=
  ⟨by decide,
    (not_connected_enotconn sampleSession (some sampleTransfer) true true
      (some "x") none (by decide)).1,
    (not_connected_enotconn sampleSession (some sampleTransfer) true true
      (some "x") none (by decide)).2.1,
    (not_connected_enotconn sampleSession (some sampleTransfer) true true
      (some "x") none (by decide)).2.2.1,
    (not_connected_enotconn sampleSession (some sampleTransfer) true true
      (some "x") none (by decide)).2.2.2⟩

/-- C5: a progress notification whose byte count equals the transfer's
declared size is treated as completion even without an explicit completion
signal: the agent (when registered, and when the transfer has a path)
receives the Complete notification; the transfer is terminated — through
the session-level callback when one is set, otherwise by unregistering it —
and in the latter case, when another transfer is then at the head of the
pending queue, its admission cycle is started. -/
theorem progress_at_size_completes (s : OSession) (reg : List OSession)
    (t : Transfer) (transferred : Int)
    (hsz : transferred = t.size) (hrc : 1 ≤ s.refcount) :
    (∀ p, s.agent.isSome = true → t.tpath = some p →
        Effect.agentNotifyComplete p ∈
          (session_notify_progress s reg t transferred true).2.2)
      ∧ (s.callback.isSome = true →
          Effect.sessionCbInvoked none ∈
            (session_notify_progress s reg t transferred true).2.2)
      ∧ (s.callback = none →
          Effect.transferUnregistered t.tid ∈
              (session_notify_progress s reg t transferred true).2.2
            ∧ (∃ s2, (session_notify_progress s reg t transferred true).1
                  = some s2 ∧ s2.pending = s.pending.erase t)
            ∧ (∀ t2, (s.pending.erase t).head? = some t2 →
                Effect.admissionStarted t2.tid ∈
                  (session_notify_progress s reg t transferred true).2.2))
      := by
  subst hsz
  cases hcb : s.callback with
  | some u =>
    refine ⟨?_, ?_, ?_⟩
    · intro p hag hpath
      rcases Option.isSome_iff_exists.mp hag with ⟨a, ha⟩
      simp [session_notify_progress, session_notify_complete,
        session_terminate_transfer, hcb, ha, hpath]
    · intro _
      simp [session_notify_progress, session_notify_complete,
        session_terminate_transfer, hcb]
    · intro hnone
      simp at hnone
  | none =>
    have h0 : ¬ s.refcount = 0 := by omega
    refine ⟨?_, ?_, ?_⟩
    · intro p hag hpath
      rcases Option.isSome_iff_exists.mp hag with ⟨a, ha⟩
      simp [session_notify_progress, session_notify_complete,
        session_terminate_transfer, obc_transfer_unregister,
        obc_session_ref, obc_session_unref_w, hcb, ha, hpath, h0]
    · intro hsome
      simp at hsome
    · intro _
      refine ⟨?_, ?_, ?_⟩
      · simp [session_notify_progress, session_notify_complete,
          session_terminate_transfer, obc_transfer_unregister,
          obc_session_ref, obc_session_unref_w, hcb, h0]
      · have hres : (session_notify_progress s reg t t.size true).1
            = some { s with refcount := s.refcount + 1 - 1, pending := s.pending.erase t } := by
          simp [session_notify_progress, session_notify_complete,
            session_terminate_transfer, obc_transfer_unregister,
            obc_session_ref, obc_session_unref_w, hcb, h0]
        rw [hres]
        exact ⟨_, rfl, rfl⟩
      · intro t2 ht2
        rcases hl : s.pending.erase t with _ | ⟨t2x, tl⟩
        · rw [hl] at ht2
          simp at ht2
        · rw [hl] at ht2
          simp only [List.head?_cons, Option.some_inj] at ht2
          subst ht2
          have hreq : ∀ sx : OSession,
              (session_request sx t2x true).2
                = [Effect.admissionStarted t2x.tid] := by
            intro sx
            unfold session_request
            cases hA : sx.agent <;> cases hp : t2x.tpath <;> simp
          simp [session_notify_progress, session_notify_complete,
            session_terminate_transfer, obc_transfer_unregister,
            obc_session_ref, obc_session_unref_w, hcb, h0, hl, hreq]

theorem progress_at_size_completes_witness :
    (100 : Int) = sampleTransfer.size
      ∧ (1 : Int) ≤ c5Session.refcount
      ∧ Effect.agentNotifyComplete "/org/openobex/transfer0" ∈
          (session_notify_progress c5Session [] sampleTransfer 100 true).2.2
      ∧ Effect.transferUnregistered sampleTransfer.tid ∈
          (session_notify_progress c5Session [] sampleTransfer 100 true).2.2
      ∧ Effect.admissionStarted sampleTransfer2.tid ∈
          (session_notify_progress c5Session [] sampleTransfer 100 true).2.2
      :=
  ⟨by decide, by decide,
    (progress_at_size_completes c5Session [] sampleTransfer 100
      (by decide) (by decide)).1 "/org/openobex/transfer0"
      (by decide) (by decide),
    ((progress_at_size_completes c5Session [] sampleTransfer 100
      (by decide) (by decide)).2.2 (by decide)).1,
    ((progress_at_size_completes c5Session [] sampleTransfer 100
      (by decide) (by decide)).2.2 (by decide)).2.2 sampleTransfer2
      (by decide)⟩

/-- C9: entering "telecom" from "/" yields "/telecom"; going up from
"/telecom/pb" with an empty name yields "/telecom"; and any input whose
computed path lies outside the folder whitelist returns NULL with
-ENOENT. -/
theorem set_folder_cases :
    phonebook_set_folder "/" (some "telecom") 0x02 = (some "/telecom", 0)
      ∧ phonebook_set_folder "/telecom/pb" (some "") 0x03
          = (some "/telecom", 0)
      ∧ (∀ current nf flags p,
          (set_folder_path current nf flags).1 = some p →
          folder_is_valid p = false →
          phonebook_set_folder current nf flags = (none, -ENOENTERR)) := by
  refine ⟨by decide, by decide, ?_⟩
  intro current nf flags p h1 h2
  unfold phonebook_set_folder
  simp [h1, h2, ENOENTERR]

theorem set_folder_cases_witness :
    (set_folder_path "/telecom" (some "bogus") 0x02).1 = some "/telecom/bogus"
      ∧ folder_is_valid "/telecom/bogus" = false
      ∧ phonebook_set_folder "/telecom" (some "bogus") 0x02
          = (none, -ENOENTERR) :=
  ⟨by decide, by decide,
    set_folder_cases.2.2 "/telecom" (some "bogus") 0x02 "/telecom/bogus"
      (by decide) (by decide)⟩

end MapClient
